import Mathlib

set_option maxRecDepth 1000000

/-!
Verification of `convert_controllers.py`, a three-stage regex-based
source-to-source rewriter for controller files.

The script is embedded shallowly: each Python `re` pattern used by the
script is translated into an executable matcher over `List Char`, and
`re.sub` (leftmost, non-overlapping, repeated substitution) is embedded
as `reSub`.  Each matcher returns, on success at the current position,
the replacement text produced by the corresponding substitution together
with the remainder of the input after the matched span.

All greedy sub-patterns of the script's regexes (`\s*`, `\w+`, `[^x]*`)
are followed either by the end of the pattern or by a literal whose
first character is outside the repeated class, so their matching is
deterministic maximal munch; the two lazy groups `(.*?)` expand one
character at a time until their continuation matches; `\s*$` (MULTILINE)
and `\s*\n` backtrack from maximal whitespace to the longest prefix
whose successor position satisfies the anchor/literal.  The embedding
implements exactly these semantics.
-/

namespace ConvertControllers

abbrev Chars := List Char

/-- Python's `\s` class (ASCII part): space, tab, newline, carriage
return, vertical tab, form feed. -/
def isPySpace (c : Char) : Bool :=
  c = ' ' || c = '\t' || c = '\n' || c = '\r' || c = '\x0b' || c = '\x0c'

/-- Python's `\w` class (ASCII part): letters, digits, underscore. -/
def isWordChar (c : Char) : Bool :=
  c.isAlpha || c.isDigit || c = '_'

/-- Consume a literal prefix; return the rest on success. -/
def lit : Chars → Chars → Option Chars
  | [], s => some s
  | _, [] => none
  | l :: ls, c :: cs => if c = l then lit ls cs else none

/-- Leftmost occurrence test for a (non-empty) literal substring,
Python's `needle in hay`. -/
def containsSub (needle : Chars) : Chars → Bool
  | [] => (lit needle []).isSome
  | c :: cs => (lit needle (c :: cs)).isSome || containsSub needle cs

/-- Count of leftmost non-overlapping occurrences of a non-empty
needle, Python's `hay.count(needle)` (fueled; fuel `hay.length`
suffices). -/
def countOccF (needle : Chars) : Nat → Chars → Nat
  | _, [] => 0
  | 0, _ => 0
  | fuel + 1, c :: cs =>
    match lit needle (c :: cs) with
    | some rest =>
      if rest.length ≤ cs.length then 1 + countOccF needle fuel rest
      else countOccF needle fuel cs
    | none => countOccF needle fuel cs

def countOcc (needle s : Chars) : Nat := countOccF needle s.length s

/-- Remove all leftmost non-overlapping occurrences of a non-empty
needle, Python's `hay.replace(needle, '')` (fueled). -/
def removeAllF (needle : Chars) : Nat → Chars → Chars
  | _, [] => []
  | 0, s => s
  | fuel + 1, c :: cs =>
    match lit needle (c :: cs) with
    | some rest =>
      if rest.length ≤ cs.length then removeAllF needle fuel rest
      else c :: removeAllF needle fuel cs
    | none => c :: removeAllF needle fuel cs

def removeAllOcc (needle s : Chars) : Chars := removeAllF needle s.length s

/-- Python's `str.strip()`: drop leading and trailing whitespace. -/
def stripWs (s : Chars) : Chars :=
  ((s.dropWhile isPySpace).reverse.dropWhile isPySpace).reverse

/-- `\s*\n` with a greedy, backtracking `\s*`: consume the maximal
whitespace run up to and including its last newline; fail when the run
has no newline. -/
def wsTailThruLastNewline (s : Chars) : Option Chars :=
  let w := s.takeWhile isPySpace
  let r := s.dropWhile isPySpace
  if (w.reverse.dropWhile (fun c => c ≠ '\n')).isEmpty then none
  else some ((w.reverse.takeWhile (fun c => c ≠ '\n')).reverse ++ r)

/-- `\s*$` under `re.MULTILINE` with a greedy, backtracking `\s*`: if
the maximal whitespace run reaches the end of input, consume it all;
otherwise consume up to (excluding) the last newline of the run, so
that `$` holds just before that newline; fail when the run contains no
newline and does not reach the end. -/
def wsTailToLineEnd (s : Chars) : Option Chars :=
  let w := s.takeWhile isPySpace
  let r := s.dropWhile isPySpace
  if r.isEmpty then some []
  else
    let rev := w.reverse
    if (rev.dropWhile (fun c => c ≠ '\n')).isEmpty then none
    else some ('\n' :: (rev.takeWhile (fun c => c ≠ '\n')).reverse ++ r)

/-- Lazy `(.*?)` without `re.DOTALL` (`.` excludes newline): expand the
capture one character at a time until the continuation `k` succeeds;
return the capture and the continuation's result. -/
def lazyDotUntil (k : Chars → Option Chars) : Chars → Option (Chars × Chars)
  | [] =>
    match k [] with
    | some r => some ([], r)
    | none => none
  | c :: cs =>
    match k (c :: cs) with
    | some r => some ([], r)
    | none =>
      if c = '\n' then none
      else (lazyDotUntil k cs).map (fun p => (c :: p.1, p.2))

/-- Lazy `(.*?)` under `re.DOTALL` (`.` matches any character). -/
def lazyAnyUntil (k : Chars → Option Chars) : Chars → Option (Chars × Chars)
  | [] =>
    match k [] with
    | some r => some ([], r)
    | none => none
  | c :: cs =>
    match k (c :: cs) with
    | some r => some ([], r)
    | none => (lazyAnyUntil k cs).map (fun p => (c :: p.1, p.2))

/-! ## The five patterns of `convert_controllers.py` -/

/-- Continuation of the signature pattern after the lazy parameter
capture: `\):\s*Promise<void>\s*=>\s*\{`. -/
def sigCont (s : Chars) : Option Chars := do
  let t1 ← lit "):".toList s
  let t2 ← lit "Promise<void>".toList (t1.dropWhile isPySpace)
  let t3 ← lit "=>".toList (t2.dropWhile isPySpace)
  lit "\x7b".toList (t3.dropWhile isPySpace)

/-- `convert_method`, first substitution.  Pattern
`(\s*)(\w+)\s*=\s*this\.asyncHandler\(async\s*\((.*?)\):\s*Promise<void>\s*=>\s*\{`
with replacement
`f'{indent}async {method_name}({params}): Promise<void> {{\n{indent}  try {{'`.
On success returns (replacement, rest-of-input-after-match). -/
def matchSignature (s : Chars) : Option (Chars × Chars) :=
  let ind := s.takeWhile isPySpace
  let s1 := s.dropWhile isPySpace
  let name := s1.takeWhile isWordChar
  if name.isEmpty then none
  else do
    let s2 := s1.dropWhile isWordChar
    let s3 ← lit "=".toList (s2.dropWhile isPySpace)
    let s4 ← lit "this.asyncHandler(async".toList (s3.dropWhile isPySpace)
    let s5 ← lit "(".toList (s4.dropWhile isPySpace)
    let (params, rest) ← lazyDotUntil sigCont s5
    let repl := ind ++ "async ".toList ++ name ++ "(".toList ++ params ++
      "): Promise<void> \x7b\n".toList ++ ind ++ "  try \x7b".toList
    some (repl, rest)

/-- `convert_method`, second substitution.  Pattern `\s*\}\);\s*$` with
`re.MULTILINE` and the constant replacement `'\n    }\n  }'`. -/
def matchClosing (s : Chars) : Option (Chars × Chars) := do
  let s1 ← lit "\x7d);".toList (s.dropWhile isPySpace)
  let rest ← wsTailToLineEnd s1
  some ("\n    \x7d\n  \x7d".toList, rest)

/-- `convert_validation_patterns`, first substitution.  Pattern
`@Validate\(\{[^}]*\}\)\s*\n` with empty replacement. -/
def matchValidate (s : Chars) : Option (Chars × Chars) := do
  let s1 ← lit "@Validate(\x7b".toList s
  let s2 ← lit "\x7d)".toList (s1.dropWhile (fun c => c ≠ '\x7d'))
  let rest ← wsTailThruLastNewline s2
  some ([], rest)

/-- `convert_validation_patterns`, second substitution.  Pattern
`const validation = this\.validateRequest\([^;]*;\s*if \(!validation\.isValid\) \{[^}]*\}\s*`
with `re.DOTALL` and empty replacement. -/
def matchValidationLogic (s : Chars) : Option (Chars × Chars) := do
  let s1 ← lit "const validation = this.validateRequest(".toList s
  let s2 ← lit ";".toList (s1.dropWhile (fun c => c ≠ ';'))
  let s3 ← lit "if (!validation.isValid) \x7b".toList (s2.dropWhile isPySpace)
  let s4 ← lit "\x7d".toList (s3.dropWhile (fun c => c ≠ '\x7d'))
  some ([], s4.dropWhile isPySpace)

/-- Python's `re.search(r'(\s*this\.logRequest[^;]*;)', body)` match
attempt anchored at the current position. -/
def logAt (s : Chars) : Option Chars := do
  let ws := s.takeWhile isPySpace
  let s1 ← lit "this.logRequest".toList (s.dropWhile isPySpace)
  let mid := s1.takeWhile (fun c => c ≠ ';')
  let _ ← lit ";".toList (s1.dropWhile (fun c => c ≠ ';'))
  some (ws ++ "this.logRequest".toList ++ mid ++ [';'])

/-- Leftmost `re.search` for the logging-statement pattern. -/
def searchLog : Chars → Option Chars
  | [] => none
  | c :: cs =>
    match logAt (c :: cs) with
    | some m => some m
    | none => searchLog cs

/-- The replacement function `fix_try_blocks` of `process_file`,
applied to the three captures (indentation, method signature, method
body). -/
def fix_try_blocks (ind sig body : Chars) : Chars :=
  let body' :=
    if containsSub "this.logRequest".toList body then
      match searchLog body with
      | some st =>
        "\n".toList ++ ind ++ "    ".toList ++ stripWs st ++ "\n".toList ++
          removeAllOcc st body
      | none => body
    else body
  ind ++ sig ++ " \x7b\n".toList ++ ind ++ "  try \x7b".toList ++ body' ++
    "\n".toList ++ ind ++ "  \x7d\n".toList ++ ind ++ "\x7d".toList

/-- Continuation of the try-block pattern after the lazy body capture:
`\s*\}\s*\}`. -/
def closeCont (s : Chars) : Option Chars := do
  let t1 ← lit "\x7d".toList (s.dropWhile isPySpace)
  lit "\x7d".toList (t1.dropWhile isPySpace)

/-- The substitution of `process_file`.  Pattern
`(\s*)(async \w+\([^)]*\): Promise<void>)\s*\{\s*try\s*\{(.*?)\s*\}\s*\}`
with `re.DOTALL`, replaced through `fix_try_blocks`. -/
def matchFix (s : Chars) : Option (Chars × Chars) :=
  let ind := s.takeWhile isPySpace
  let s1 := s.dropWhile isPySpace
  match lit "async ".toList s1 with
  | none => none
  | some s2 =>
    let name := s2.takeWhile isWordChar
    if name.isEmpty then none
    else do
      let s3 ← lit "(".toList (s2.dropWhile isWordChar)
      let ps := s3.takeWhile (fun c => c ≠ ')')
      let s4 ← lit "): Promise<void>".toList (s3.dropWhile (fun c => c ≠ ')'))
      let s5 ← lit "\x7b".toList (s4.dropWhile isPySpace)
      let s6 ← lit "try".toList (s5.dropWhile isPySpace)
      let s7 ← lit "\x7b".toList (s6.dropWhile isPySpace)
      let (body, rest) ← lazyAnyUntil closeCont s7
      let sig := "async ".toList ++ name ++ "(".toList ++ ps ++
        "): Promise<void>".toList
      some (fix_try_blocks ind sig body, rest)

/-! ## `re.sub` -/

/-- Fueled engine for `re.sub`: scan left to right; at each position
attempt the matcher; on success emit its replacement and resume after
the matched span (all the script's patterns match at least one
character, which the length guard records); otherwise keep the current
character and move on.  Fuel `s.length` suffices. -/
def reSubF (m : Chars → Option (Chars × Chars)) : Nat → Chars → Chars
  | _, [] => []
  | 0, s => s
  | fuel + 1, c :: cs =>
    match m (c :: cs) with
    | some (r, rest) =>
      if rest.length ≤ cs.length then r ++ reSubF m fuel rest
      else c :: reSubF m fuel cs
    | none => c :: reSubF m fuel cs

/-- `re.sub(pattern, repl, s)` for a pattern embedded as `m`. -/
def reSub (m : Chars → Option (Chars × Chars)) (s : Chars) : Chars :=
  reSubF m s.length s

/-- `m` matches at some position of `s`. -/
def hasMatch (m : Chars → Option (Chars × Chars)) : Chars → Bool
  | [] => false
  | c :: cs => (m (c :: cs)).isSome || hasMatch m cs

/-! ## The three rewrite stages -/

/-- `convert_method` of `convert_controllers.py`. -/
def convert_method (s : Chars) : Chars :=
  reSub matchClosing (reSub matchSignature s)

/-- `convert_validation_patterns` of `convert_controllers.py`. -/
def convert_validation_patterns (s : Chars) : Chars :=
  reSub matchValidationLogic (reSub matchValidate s)

/-- The try-block substitution performed inside `process_file`. -/
def fixTrySub (s : Chars) : Chars :=
  reSub matchFix s

/-- The full per-file text transformation of `process_file`:
`convert_method`, then `convert_validation_patterns`, then the
`fix_try_blocks` substitution. -/
def transform_content (s : Chars) : Chars :=
  fixTrySub (convert_validation_patterns (convert_method s))

/-- Index of the leftmost occurrence of a substring. -/
def firstIdx (needle : Chars) : Chars → Option Nat
  | [] => if (lit needle []).isSome then some 0 else none
  | c :: cs =>
    if (lit needle (c :: cs)).isSome then some 0
    else (firstIdx needle cs).map (· + 1)

/-! ## No-match behaviour of `re.sub` -/

/-- When the matcher succeeds at no position of `s`, `reSubF` rebuilds
`s` unchanged, for every fuel value. -/
theorem reSubF_of_not_hasMatch (m : Chars → Option (Chars × Chars)) :
    ∀ (s : Chars) (fuel : Nat), hasMatch m s = false → reSubF m fuel s = s
  | [], fuel, _ => by cases fuel <;> rfl
  | c :: cs, fuel, h => by
    rw [hasMatch, Bool.or_eq_false_iff] at h
    have h1 : m (c :: cs) = none := by
      cases hm : m (c :: cs) with
      | none => rfl
      | some p => rw [hm] at h; simp at h
    cases fuel with
    | zero => rfl
    | succ f =>
      rw [reSubF, h1, reSubF_of_not_hasMatch m cs f h.2]

/-- `re.sub` is the identity in the absence of any match. -/
theorem reSub_of_not_hasMatch (m : Chars → Option (Chars × Chars))
    (s : Chars) (h : hasMatch m s = false) : reSub m s = s :=
  reSubF_of_not_hasMatch m s s.length h

/-- The replacement emitted by the closing-token substitution of
`convert_method` is the fixed text `'\n    }\n  }'`, whatever the
input. -/
theorem matchClosing_repl_const (s r rest : Chars)
    (h : matchClosing s = some (r, rest)) : r = "\n    \x7d\n  \x7d".toList := by
  unfold matchClosing at h
  cases h1 : lit "\x7d);".toList (s.dropWhile isPySpace) with
  | none => rw [h1] at h; simp at h
  | some s1 =>
    rw [h1] at h
    cases h2 : wsTailToLineEnd s1 with
    | none => simp [h2] at h
    | some rest' =>
      simp [h2] at h
      exact h.1.symm

/-! ## The file orchestrator (`process_file`'s I/O shell and `main`) -/

/-- The hardcoded target list of `main`. -/
def controller_files : List String :=
  ["src/controllers/chat/ChatController.modern.ts",
   "src/controllers/provider/ProviderController.modern.ts",
   "src/controllers/request/RequestController.modern.ts",
   "src/controllers/review/ReviewController.modern.ts",
   "src/controllers/user/UserController.modern.ts"]

/-- The filesystem, as a map from path to content of the existing
files. -/
abbrev FileSys := String → Option String

def fsWrite (fs : FileSys) (p : String) (content : String) : FileSys :=
  fun q => if q = p then some content else fs q

/-- `os.path.exists` over the modelled filesystem. -/
def os_path_exists (fs : FileSys) (p : String) : Bool :=
  (fs p).isSome

/-- `process_file` of the script: print the processing notice, read the
file, run the three-stage transformation, write back only on change,
and report the outcome.  `main` calls it only after the existence
check, so the read is modelled totally with `getD`.  Returns the new
filesystem, the changed flag, and the printed lines. -/
def process_file (fs : FileSys) (p : String) : FileSys × Bool × List String :=
  let content := (fs p).getD ""
  let newContent := (transform_content content.toList).asString
  if newContent = content then
    (fs, false, ["Processing " ++ p ++ "...", "⏭️  No changes needed for " ++ p])
  else
    (fsWrite fs p newContent, true,
      ["Processing " ++ p ++ "...", "✅ Updated " ++ p])

/-- The per-path loop of `main`: existence check, then `process_file`
or a not-found warning.  Returns the final filesystem, the updated
paths in order, and the printed lines. -/
def runFiles (fs : FileSys) : List String → FileSys × List String × List String
  | [] => (fs, [], [])
  | p :: ps =>
    if os_path_exists fs p then
      let r := process_file fs p
      let k := runFiles r.1 ps
      (k.1, (if r.2.1 then [p] else []) ++ k.2.1, r.2.2 ++ k.2.2)
    else
      let k := runFiles fs ps
      (k.1, k.2.1, ("⚠️  File not found: " ++ p) :: k.2.2)

/-- The final summary lines of `main`. -/
def mainSummary (upds : List String) : List String :=
  if upds.isEmpty then ["\n⏭️  No files were updated"]
  else ("\n✅ Successfully updated " ++ toString upds.length ++ " files:") ::
    upds.map (fun p => "  - " ++ p)

/-- `main` of the script, with the filesystem made explicit: runs the
loop over `controller_files` and appends the summary lines. -/
def main (fs : FileSys) : FileSys × List String × List String :=
  let r := runFiles fs controller_files
  (r.1, r.2.1, r.2.2 ++ mainSummary r.2.1)

/-- A write performed by `process_file` targets the path it was called
on, which passed the existence check; it therefore never creates an
entry at a path absent from the filesystem. -/
theorem process_file_fst_none (fs : FileSys) (p q : String)
    (hex : os_path_exists fs p = true) (h : fs q = none) :
    (process_file fs p).1 q = none := by
  have hpq : q ≠ p := by
    intro e
    subst e
    unfold os_path_exists at hex
    rw [h] at hex
    simp at hex
  simp only [process_file]
  split
  · exact h
  · simp [fsWrite, hpq, h]

/-- The processing notice is always the first line `process_file`
prints. -/
theorem process_file_notice (fs : FileSys) (p : String) :
    ("Processing " ++ p ++ "...") ∈ (process_file fs p).2.2 := by
  simp only [process_file]
  split <;> simp

/-- The loop never creates an entry at a missing path. -/
theorem runFiles_fst_none (q : String) :
    ∀ (ps : List String) (fs : FileSys), fs q = none →
      (runFiles fs ps).1 q = none
  | [], _, h => h
  | p :: ps, fs, h => by
    cases hex : os_path_exists fs p with
    | true =>
      simp only [runFiles, hex, if_true]
      exact runFiles_fst_none q ps _ (process_file_fst_none fs p q hex h)
    | false =>
      simp only [runFiles, hex, Bool.false_eq_true, if_false]
      exact runFiles_fst_none q ps fs h

/-- A path of the worklist that is missing at the start (and hence at
its own turn, since the loop never creates it) gets the not-found
warning. -/
theorem runFiles_warns (q : String) :
    ∀ (ps : List String) (fs : FileSys), q ∈ ps → fs q = none →
      ("⚠️  File not found: " ++ q) ∈ (runFiles fs ps).2.2
  | [], _, hq, _ => by cases hq
  | p :: ps, fs, hq, h => by
    cases hex : os_path_exists fs p with
    | true =>
      have hqp : q ≠ p := by
        intro e
        subst e
        unfold os_path_exists at hex
        rw [h] at hex
        simp at hex
      have hq' : q ∈ ps := by
        cases hq with
        | head => exact absurd rfl hqp
        | tail _ hm => exact hm
      simp only [runFiles, hex, if_true]
      exact List.mem_append_right _
        (runFiles_warns q ps _ hq' (process_file_fst_none fs p q hex h))
    | false =>
      simp only [runFiles, hex, Bool.false_eq_true, if_false, List.mem_cons]
      cases hq with
      | head => exact Or.inl rfl
      | tail _ hm => exact Or.inr (runFiles_warns q ps fs hm h)

/-- Every path of the worklist receives its per-file line: the
processing notice when present, the warning when missing. -/
theorem runFiles_marks (q : String) :
    ∀ (ps : List String) (fs : FileSys), q ∈ ps →
      ("Processing " ++ q ++ "...") ∈ (runFiles fs ps).2.2 ∨
      ("⚠️  File not found: " ++ q) ∈ (runFiles fs ps).2.2
  | [], _, hq => by cases hq
  | p :: ps, fs, hq => by
    cases hex : os_path_exists fs p with
    | true =>
      simp only [runFiles, hex, if_true]
      cases hq with
      | head =>
        exact Or.inl (List.mem_append_left _ (process_file_notice fs q))
      | tail _ hm =>
        cases runFiles_marks q ps (process_file fs p).1 hm with
        | inl hin => exact Or.inl (List.mem_append_right _ hin)
        | inr hin => exact Or.inr (List.mem_append_right _ hin)
    | false =>
      simp only [runFiles, hex, Bool.false_eq_true, if_false, List.mem_cons]
      cases hq with
      | head => exact Or.inr (Or.inl rfl)
      | tail _ hm =>
        cases runFiles_marks q ps fs hm with
        | inl hin => exact Or.inl (Or.inr hin)
        | inr hin => exact Or.inr (Or.inr hin)

/-! ## Concrete inputs and their computed rewrites -/

/-- The end-to-end example input of the spec (section 8). -/
def endToEndInput : Chars :=
  "create = this.asyncHandler(async (req, res): Promise<void> => \x7b\n  @Validate(\x7bschema: X\x7d)\n  const validation = this.validateRequest(req); if (!validation.isValid) \x7b return; \x7d\n  this.logRequest(req);\n  doWork(req, res);\n\x7d);".toList

/-- `convert_method` applied to the end-to-end example. -/
def endToEndStage1 : Chars :=
  "async create(req, res): Promise<void> \x7b\n  try \x7b\n  @Validate(\x7bschema: X\x7d)\n  const validation = this.validateRequest(req); if (!validation.isValid) \x7b return; \x7d\n  this.logRequest(req);\n  doWork(req, res);\n    \x7d\n  \x7d".toList

/-- `convert_validation_patterns` applied to `endToEndStage1`. -/
def endToEndStage2 : Chars :=
  "async create(req, res): Promise<void> \x7b\n  try \x7b\n    this.logRequest(req);\n  doWork(req, res);\n    \x7d\n  \x7d".toList

/-- The full pipeline applied to the end-to-end example. -/
def endToEndOutput : Chars :=
  "async create(req, res): Promise<void> \x7b\n  try \x7b\n    this.logRequest(req);\n\n  doWork(req, res);\n  \x7d\n\x7d".toList

/-- The full pipeline applied twice to the end-to-end example: one more blank line. -/
def endToEndTwice : Chars :=
  "async create(req, res): Promise<void> \x7b\n  try \x7b\n    this.logRequest(req);\n\n\n  doWork(req, res);\n  \x7d\n\x7d".toList

/-- The end-to-end example without the logging and validation lines. -/
def noLogInput : Chars :=
  "create = this.asyncHandler(async (req, res): Promise<void> => \x7b\n  doWork(req, res);\n\x7d);".toList

/-- The full pipeline applied to `noLogInput` (a fixed point). -/
def noLogOutput : Chars :=
  "async create(req, res): Promise<void> \x7b\n  try \x7b\n  doWork(req, res);\n  \x7d\n\x7d".toList

/-- A closing-token line with no wrapped-callback signature anywhere. -/
def closingOnlyInput : Chars :=
  "x\x7d);".toList

/-- `convert_method` still rewrites `closingOnlyInput`. -/
def closingOnlyOutput : Chars :=
  "x\n    \x7d\n  \x7d".toList

/-- A legacy method at indentation 2. -/
def indentTwoInput : Chars :=
  "  foo = this.asyncHandler(async (req): Promise<void> => \x7b\n    body();\n  \x7d);".toList

/-- `convert_method` on the indentation-2 method. -/
def indentTwoOutput : Chars :=
  "  async foo(req): Promise<void> \x7b\n    try \x7b\n    body();\n    \x7d\n  \x7d".toList

/-- A legacy method at indentation 4. -/
def indentFourInput : Chars :=
  "    foo = this.asyncHandler(async (req): Promise<void> => \x7b\n      body();\n    \x7d);".toList

/-- `convert_method` on the indentation-4 method: the closing lines still carry the fixed 4-space and 2-space indentation. -/
def indentFourOutput : Chars :=
  "    async foo(req): Promise<void> \x7b\n      try \x7b\n      body();\n    \x7d\n  \x7d".toList

/-- Two adjacent, independent legacy methods in one file. -/
def twoMethodInput : Chars :=
  "  createA = this.asyncHandler(async (req, res): Promise<void> => \x7b\n    this.logRequest(req);\n    workA(req, res);\n  \x7d);\n\n  createB = this.asyncHandler(async (req, res): Promise<void> => \x7b\n    this.logRequest(req);\n    workB(req, res);\n  \x7d);\n".toList

/-- The full pipeline on the two-method file. -/
def twoMethodOutput : Chars :=
  "  async createA(req, res): Promise<void> \x7b\n    try \x7b\n      this.logRequest(req);\n\n    workA(req, res);\n    \x7d\n  \x7d\n  async createB(req, res): Promise<void> \x7b\n\n    try \x7b\n\n      this.logRequest(req);\n\n    workB(req, res);\n\n    \x7d\n\n  \x7d".toList

/-- A converted method whose body holds two differently indented copies of the logging statement. -/
def twoLogInput : Chars :=
  "async m(req): Promise<void> \x7b\n  try \x7b\n    this.logRequest(req);\n      this.logRequest(req);\n  work();\n  \x7d\n\x7d".toList

/-- The try-block substitution on `twoLogInput`: the second copy survives. -/
def twoLogOutput : Chars :=
  "async m(req): Promise<void> \x7b\n  try \x7b\n    this.logRequest(req);\n\n      this.logRequest(req);\n  work();\n  \x7d\n\x7d".toList

/-- A converted method whose body holds a single logging statement after other statements. -/
def oneLogInput : Chars :=
  "async m(req): Promise<void> \x7b\n  try \x7b\n  work();\n    this.logRequest(req);\n  more();\n  \x7d\n\x7d".toList

/-- The try-block substitution on `oneLogInput`: the statement is relocated to the top. -/
def oneLogOutput : Chars :=
  "async m(req): Promise<void> \x7b\n  try \x7b\n    this.logRequest(req);\n\n  work();\n  more();\n  \x7d\n\x7d".toList

/-- An indented validation annotation followed by a statement line. -/
def indentedValidateInput : Chars :=
  "  @Validate(\x7ba: 1\x7d)\n  const y = 2;\n".toList

/-- Stripping the indented annotation leaves its leading indentation, which merges into the next line. -/
def indentedValidateOutput : Chars :=
  "    const y = 2;\n".toList

/-- Two validation annotations in one text. -/
def twoValidateInput : Chars :=
  "@Validate(\x7ba\x7d)\nx;\n@Validate(\x7bb\x7d)\ny;\n".toList

/-- Both annotations are removed. -/
def twoValidateOutput : Chars :=
  "x;\ny;\n".toList

/-- An inline validation check followed by unrelated code. -/
def inlineCheckInput : Chars :=
  "  const validation = this.validateRequest(req); if (!validation.isValid) \x7b return; \x7d\n  next(req);\n".toList

/-- The check is removed; the following code stays. -/
def inlineCheckOutput : Chars :=
  "  next(req);\n".toList

/-- Two line-terminal closing tokens, no asyncHandler anywhere. -/
def closingPairInput : Chars :=
  "x\x7d);\ny\x7d);".toList

/-- Both closing tokens replaced by the fixed text. -/
def closingPairOutput : Chars :=
  "x\n    \x7d\n  \x7d\ny\n    \x7d\n  \x7d".toList

/-- A non-line-terminal closing token and a whitespace-surrounded line-terminal one. -/
def closingMixedInput : Chars :=
  "a\x7d); b\nc  \x7d);  \nd".toList

/-- Only the line-terminal token is replaced, together with its surrounding same-line whitespace. -/
def closingMixedOutput : Chars :=
  "a\x7d); b\nc\n    \x7d\n  \x7d\nd".toList

/-- A text in which none of the five patterns matches. -/
def plainInput : Chars :=
  "export const x = 1;\n".toList

/-! ## Claims -/

/-- C1, counterexample: the full three-stage pipeline is not
idempotent.  On the spec's own end-to-end example the second pass
changes the text again (the try-block substitution re-matches its own
output and re-relocates the logging statement, inserting one more
blank line). -/
theorem C1_counterexample :
    transform_content (transform_content endToEndInput) ≠
      transform_content endToEndInput := by decide

/-- C1, amended: the pipeline is not idempotent on texts whose
reconstructed body contains a `this.logRequest` statement — each
further pass re-relocates the statement and inserts one more blank
line (the second pass turns `endToEndOutput` into `endToEndTwice`,
which differ exactly by one newline).  The first two stages are
idempotent on their own outputs of the example, and the full pipeline
is idempotent on the example without the logging line. -/
theorem C1_amended_idempotence :
    convert_method endToEndInput = endToEndStage1 ∧
    convert_method endToEndStage1 = endToEndStage1 ∧
    convert_validation_patterns endToEndStage1 = endToEndStage2 ∧
    convert_validation_patterns endToEndStage2 = endToEndStage2 ∧
    transform_content endToEndInput = endToEndOutput ∧
    transform_content endToEndOutput = endToEndTwice ∧
    endToEndTwice ≠ endToEndOutput ∧
    transform_content noLogInput = noLogOutput ∧
    transform_content noLogOutput = noLogOutput :=
  ⟨by decide, by decide, by decide, by decide, by decide, by decide,
   by decide, by decide, by decide⟩

/-- C2: on the end-to-end example the pipeline produces a plain async
method `create(req, res): Promise<void>` whose body is a single try
block holding the logging call and then `doWork(req, res);` in order,
with the annotation, the validation check and the `asyncHandler`
wrapper all gone. -/
theorem C2_end_to_end :
    transform_content endToEndInput = endToEndOutput ∧
    containsSub "async create(req, res): Promise<void> \x7b".toList
      endToEndOutput = true ∧
    countOcc "try \x7b".toList endToEndOutput = 1 ∧
    containsSub "this.logRequest(req);\n\n  doWork(req, res);".toList
      endToEndOutput = true ∧
    containsSub "asyncHandler".toList endToEndOutput = false ∧
    containsSub "@Validate".toList endToEndOutput = false ∧
    containsSub "validation".toList endToEndOutput = false :=
  ⟨by decide, by decide, by decide, by decide, by decide, by decide,
   by decide⟩

/-- C3, counterexample: `convert_method` is not the identity whenever
its wrapped-callback pattern fails to match — its second substitution
still rewrites a line-terminal `});`. -/
theorem C3_counterexample :
    hasMatch matchSignature closingOnlyInput = false ∧
    convert_method closingOnlyInput ≠ closingOnlyInput :=
  ⟨by decide, by decide⟩

/-- C3, amended: when none of the five patterns matches anywhere in
`s`, the full pipeline and each stage return `s` unchanged; in
particular `convert_method` is the identity whenever neither of its
two patterns (wrapped-callback signature and closing tokens)
matches. -/
theorem C3_noop_safety (s : Chars)
    (h1 : hasMatch matchSignature s = false)
    (h2 : hasMatch matchClosing s = false)
    (h3 : hasMatch matchValidate s = false)
    (h4 : hasMatch matchValidationLogic s = false)
    (h5 : hasMatch matchFix s = false) :
    transform_content s = s ∧ convert_method s = s ∧
    convert_validation_patterns s = s ∧ fixTrySub s = s := by
  have hcm : convert_method s = s := by
    unfold convert_method
    rw [reSub_of_not_hasMatch _ _ h1, reSub_of_not_hasMatch _ _ h2]
  have hcv : convert_validation_patterns s = s := by
    unfold convert_validation_patterns
    rw [reSub_of_not_hasMatch _ _ h3, reSub_of_not_hasMatch _ _ h4]
  have hft : fixTrySub s = s := reSub_of_not_hasMatch _ _ h5
  refine ⟨?_, hcm, hcv, hft⟩
  unfold transform_content
  rw [hcm, hcv, hft]

/-- C3, witness: the no-op safety theorem applied to a concrete text
without any of the patterns. -/
theorem C3_witness :
    transform_content plainInput = plainInput ∧
    convert_method plainInput = plainInput ∧
    convert_validation_patterns plainInput = plainInput ∧
    fixTrySub plainInput = plainInput :=
  C3_noop_safety plainInput (by decide) (by decide) (by decide)
    (by decide) (by decide)

/-- C4, counterexample: for the method matched at indentation 4, the
claim puts the inserted closing lines at indentation 6 and 4; the
rewrite instead inserts the fixed text `'\n    }\n  }'` (indentation 4
and 2), so the 6-and-4 closing is absent from the output. -/
theorem C4_counterexample :
    convert_method indentFourInput = indentFourOutput ∧
    containsSub "\n      \x7d\n    \x7d".toList indentFourOutput = false ∧
    containsSub "\n    \x7d\n  \x7d".toList indentFourOutput = true :=
  ⟨by decide, by decide, by decide⟩

/-- C4, amended: the rewritten declaration and the opened try block do
use the captured indentation (k and k+2, as on the methods at k = 2
and k = 4), but the closing-brace lines inserted by the closing-token
substitution are always the fixed text `'\n    }\n  }'`, whatever the
captured indentation. -/
theorem C4_amended_indentation :
    (∀ s r rest, matchClosing s = some (r, rest) →
      r = "\n    \x7d\n  \x7d".toList) ∧
    convert_method indentTwoInput = indentTwoOutput ∧
    containsSub "  async foo(req): Promise<void> \x7b\n    try \x7b".toList
      indentTwoOutput = true ∧
    convert_method indentFourInput = indentFourOutput ∧
    containsSub "    async foo(req): Promise<void> \x7b\n      try \x7b".toList
      indentFourOutput = true :=
  ⟨matchClosing_repl_const, by decide, by decide, by decide, by decide⟩

/-- The result of the closing matcher on a concrete indented input. -/
def closingProbe : Chars × Chars :=
  (matchClosing "  \x7d);\nrest".toList).getD ([], [])

/-- C4, witness: the constant-replacement part of the amended claim
applied at a concrete match. -/
theorem C4_witness : closingProbe.1 = "\n    \x7d\n  \x7d".toList :=
  C4_amended_indentation.1 "  \x7d);\nrest".toList closingProbe.1
    closingProbe.2 (by decide)

/-- C5: on a file with two adjacent, independent legacy methods, both
methods are rewritten, each by its own matches: each converted
signature and each body statement occurs exactly once, `workA` occurs
before the second method's declaration and `workB` after it, and no
wrapper token survives. -/
theorem C5_span_containment :
    transform_content twoMethodInput = twoMethodOutput ∧
    countOcc "async createA(req, res): Promise<void> \x7b".toList
      twoMethodOutput = 1 ∧
    countOcc "async createB(req, res): Promise<void> \x7b".toList
      twoMethodOutput = 1 ∧
    countOcc "workA(req, res);".toList twoMethodOutput = 1 ∧
    countOcc "workB(req, res);".toList twoMethodOutput = 1 ∧
    countOcc "this.logRequest(req);".toList twoMethodOutput = 2 ∧
    containsSub "asyncHandler".toList twoMethodOutput = false ∧
    (firstIdx "workA(".toList twoMethodOutput).getD 0 <
      (firstIdx "async createB(".toList twoMethodOutput).getD 0 ∧
    (firstIdx "async createB(".toList twoMethodOutput).getD 0 <
      (firstIdx "workB(".toList twoMethodOutput).getD 0 :=
  ⟨by decide, by decide, by decide, by decide, by decide, by decide,
   by decide, by decide, by decide⟩

/-- C6, counterexample: a matched body holding two differently
indented copies of the logging statement is reconstructed with two
occurrences of the statement, not exactly one — `replace` removes only
the copies textually identical (including leading whitespace) to the
first match. -/
theorem C6_counterexample :
    hasMatch matchFix twoLogInput = true ∧
    countOcc "this.logRequest(req);".toList twoLogInput = 2 ∧
    fixTrySub twoLogInput = twoLogOutput ∧
    countOcc "this.logRequest(req);".toList twoLogOutput = 2 :=
  ⟨by decide, by decide, by decide, by decide⟩

/-- C6, amended: the first matched logging statement is relocated (in
stripped form) to the first position inside the try block, indented one
level (two spaces) deeper than the `try` line; copies textually
identical to the matched statement are removed, so the reconstructed
body contains exactly one occurrence when all copies are identical (in
particular for a single occurrence), while differently indented copies
survive in place. -/
theorem C6_amended_log_relocation :
    fixTrySub oneLogInput = oneLogOutput ∧
    countOcc "this.logRequest(req);".toList oneLogOutput = 1 ∧
    containsSub "  try \x7b\n    this.logRequest(req);\n".toList
      oneLogOutput = true ∧
    fixTrySub twoLogInput = twoLogOutput ∧
    containsSub "  try \x7b\n    this.logRequest(req);\n".toList
      twoLogOutput = true :=
  ⟨by decide, by decide, by decide, by decide, by decide⟩

/-- C7, counterexample: stripping an indented annotation does not
leave the surrounding lines intact — the annotation's own leading
indentation survives the removal (which starts at the `@` keyword) and
merges into the following line, turning `  const y = 2;` into
`    const y = 2;`. -/
theorem C7_counterexample :
    convert_validation_patterns indentedValidateInput =
      indentedValidateOutput ∧
    indentedValidateOutput ≠ "  const y = 2;\n".toList ∧
    containsSub "const y = 2;".toList indentedValidateOutput = true :=
  ⟨by decide, by decide, by decide⟩

/-- C7, amended: every occurrence of the annotation is removed from
the `@Validate` keyword through its trailing line terminator (the
annotation line's leading indentation survives and is prepended to the
following line), and the inline validation check is removed from the
binding through the close of the conditional plus the following
whitespace, leaving subsequent non-whitespace code present. -/
theorem C7_amended_validation_stripping :
    convert_validation_patterns indentedValidateInput =
      indentedValidateOutput ∧
    countOcc "@Validate".toList indentedValidateOutput = 0 ∧
    convert_validation_patterns twoValidateInput = twoValidateOutput ∧
    countOcc "@Validate".toList twoValidateOutput = 0 ∧
    convert_validation_patterns inlineCheckInput = inlineCheckOutput ∧
    countOcc "validation".toList inlineCheckOutput = 0 ∧
    containsSub "next(req);".toList inlineCheckOutput = true :=
  ⟨by decide, by decide, by decide, by decide, by decide, by decide,
   by decide⟩

/-- C8: each of the five substitutions making up the three rewrite
stages is a total function (it is a Lean function into `Chars`), and
the absence of a match is a no-op, not an error: whenever its pattern
matches nowhere in the input, the substitution returns the input
unchanged. -/
theorem C8_stage_totality (s : Chars) :
    (hasMatch matchSignature s = false → reSub matchSignature s = s) ∧
    (hasMatch matchClosing s = false → reSub matchClosing s = s) ∧
    (hasMatch matchValidate s = false → reSub matchValidate s = s) ∧
    (hasMatch matchValidationLogic s = false →
      reSub matchValidationLogic s = s) ∧
    (hasMatch matchFix s = false → reSub matchFix s = s) :=
  ⟨reSub_of_not_hasMatch _ s, reSub_of_not_hasMatch _ s,
   reSub_of_not_hasMatch _ s, reSub_of_not_hasMatch _ s,
   reSub_of_not_hasMatch _ s⟩

/-- C8, witness: the per-stage no-op property at a concrete text
without any of the patterns. -/
theorem C8_witness :
    reSub matchSignature plainInput = plainInput ∧
    reSub matchClosing plainInput = plainInput ∧
    reSub matchValidate plainInput = plainInput ∧
    reSub matchValidationLogic plainInput = plainInput ∧
    reSub matchFix plainInput = plainInput :=
  ⟨(C8_stage_totality plainInput).1 (by decide),
   (C8_stage_totality plainInput).2.1 (by decide),
   (C8_stage_totality plainInput).2.2.1 (by decide),
   (C8_stage_totality plainInput).2.2.2.1 (by decide),
   (C8_stage_totality plainInput).2.2.2.2 (by decide)⟩

/-- C9: a configured path that fails the pre-read existence check gets
the not-found warning, is never written (it is still absent from the
final filesystem), and every configured path still receives its
per-file line, so the run continues to completion. -/
theorem C9_missing_file (fs : FileSys) (p : String)
    (hp : p ∈ controller_files) (hmiss : os_path_exists fs p = false) :
    ("⚠️  File not found: " ++ p) ∈ (main fs).2.2 ∧
    (main fs).1 p = none ∧
    ∀ q ∈ controller_files,
      ("Processing " ++ q ++ "...") ∈ (main fs).2.2 ∨
      ("⚠️  File not found: " ++ q) ∈ (main fs).2.2 := by
  have hn : fs p = none := by
    unfold os_path_exists at hmiss
    cases hfp : fs p with
    | none => rfl
    | some c => rw [hfp] at hmiss; simp at hmiss
  refine ⟨?_, ?_, ?_⟩
  · exact List.mem_append_left _ (runFiles_warns p controller_files fs hp hn)
  · exact runFiles_fst_none p controller_files fs hn
  · intro q hq
    cases runFiles_marks q controller_files fs hq with
    | inl h => exact Or.inl (List.mem_append_left _ h)
    | inr h => exact Or.inr (List.mem_append_left _ h)

/-- The filesystem with no files. -/
def emptyFs : FileSys := fun _ => none

/-- C9, witness: on the empty filesystem the first configured path is
warned about, never created, and all five paths get their per-file
line. -/
theorem C9_witness :
    ("⚠️  File not found: " ++
      "src/controllers/chat/ChatController.modern.ts") ∈
        (main emptyFs).2.2 ∧
    (main emptyFs).1 "src/controllers/chat/ChatController.modern.ts" =
      none ∧
    ∀ q ∈ controller_files,
      ("Processing " ++ q ++ "...") ∈ (main emptyFs).2.2 ∨
      ("⚠️  File not found: " ++ q) ∈ (main emptyFs).2.2 :=
  C9_missing_file emptyFs "src/controllers/chat/ChatController.modern.ts"
    (by decide) rfl

/-- C10: the closing-token substitution of `convert_method` always
inserts the fixed text `'\n    }\n  }'`; it fires on every
line-terminal `});` (together with the surrounding whitespace) even
when no `asyncHandler` pattern occurs anywhere, and it leaves a
non-line-terminal `});` alone. -/
theorem C10_closing_hardcoded :
    (∀ s r rest, matchClosing s = some (r, rest) →
      r = "\n    \x7d\n  \x7d".toList) ∧
    hasMatch matchSignature closingPairInput = false ∧
    containsSub "asyncHandler".toList closingPairInput = false ∧
    convert_method closingPairInput = closingPairOutput ∧
    countOcc "\n    \x7d\n  \x7d".toList closingPairOutput = 2 ∧
    convert_method closingMixedInput = closingMixedOutput ∧
    containsSub "a\x7d); b".toList closingMixedOutput = true :=
  ⟨matchClosing_repl_const, by decide, by decide, by decide, by decide,
   by decide, by decide⟩

/-- The result of the closing matcher on a bare closing token. -/
def closingProbeBare : Chars × Chars :=
  (matchClosing "\x7d);".toList).getD ([], [])

/-- C10, witness: the constant-replacement part applied at a concrete
match. -/
theorem C10_witness : closingProbeBare.1 = "\n    \x7d\n  \x7d".toList :=
  C10_closing_hardcoded.1 "\x7d);".toList closingProbeBare.1
    closingProbeBare.2 (by decide)

end ConvertControllers
